import Mathlib

/-!
Verification of the webhook pipeline of `src/messengerbot.js`.

The file shallowly embeds the request-handling middleware stack that the
`_init` method installs on the Express application:

1. a verification middleware that intercepts GET requests and answers the
   `hub.verify_token` / `hub.challenge` handshake (lines 68–75 of the source);
2. a decode middleware that turns the raw body into `req.json` via
   `req.body.toString('utf8')` followed by `JSON.parse`, forwarding any
   failure to the error middleware (lines 77–85);
3. the dispatch handler registered with `all('*')`, guarded by
   `req.json && req.json.entry[0] && req.json.entry[0].messaging`, which
   emits the `receive` notification and one `message` notification per
   event whose `message.text` is truthy, then answers 200 (lines 87–102);
4. the 4-argument error middleware (lines 104–109).

JavaScript values produced by `JSON.parse` (together with `undefined`,
which arises from member access on objects lacking the key) are modelled
by the inductive type `JSVal`; member access and `for...of` iteration are
modelled by `getProp` and `iterateVal`, which return `Except Unit` so that
a thrown `TypeError` (member access on `undefined`/`null`, iteration over a
non-iterable) is an explicit outcome.  JSON numbers are modelled as
integers; the claims under study only exercise the number 0 and nonzero
integers, whose truthiness the model reproduces exactly.

The raw request body is represented by the outcome of decoding it:
`Request.body : Option JSVal` is `some v` when `JSON.parse` of the UTF-8
decoding of the body succeeds with value `v`, and `none` when it throws.
This is faithful because `Buffer.prototype.toString('utf8')` is total in
Node (invalid bytes become replacement characters, they never throw), so
the only decode failure is a `JSON.parse` exception, and the rest of the
pipeline observes the body exclusively through that outcome.
-/

namespace MessengerBot

/-- JavaScript values reachable in the pipeline: everything `JSON.parse`
can produce, plus `undefined` for the `undefined` produced by member access on
a missing key.  Numbers are modelled as integers (see the header note). -/
inductive JSVal where
  | undefined
  | null
  | bool (b : Bool)
  | num (n : Int)
  | str (s : String)
  | arr (elems : List JSVal)
  | obj (fields : List (String × JSVal))

/-- JavaScript truthiness, as used by `if`, `&&` and the dispatch guard:
`undefined`, `null`, `false`, `0` and the empty string are falsy; every
array and object (including empty ones) is truthy. -/
def truthy : JSVal → Bool
  | .undefined => false
  | .null => false
  | .bool b => b
  | .num n => n != 0
  | .str s => s != ""
  | .arr _ => true
  | .obj _ => true

/-- Reads a decimal numeral, used to recognise numeric property keys such
as the `0` of `entry[0]`.  (A structurally recursive stand-in for
`String.toNat?`, which is opaque to definitional reduction.) -/
def digitsToNat : List Char → Nat → Option Nat
  | [], acc => some acc
  | c :: cs, acc =>
      if c.isDigit then digitsToNat cs (acc * 10 + (c.toNat - 48)) else none

/-- The numeric index denoted by a property key, when any. -/
def keyToNat : String → Option Nat
  | k =>
    match k.data with
    | [] => none
    | cs => digitsToNat cs 0

/-- Member access `v[k]` / `v.k`.  Access on `undefined` or `null` throws a
TypeError (`Except.error`); on an object it looks the key up, yielding
`undefined` when absent; on an array or string a numeric key indexes into
it and any other key used by this program yields `undefined`; on the
remaining primitives it yields `undefined`. -/
def getProp : JSVal → String → Except Unit JSVal
  | .undefined, _ => .error ()
  | .null, _ => .error ()
  | .obj fields, k => .ok ((fields.lookup k).getD .undefined)
  | .arr elems, k =>
      match keyToNat k with
      | some i => .ok ((elems.get? i).getD .undefined)
      | none => .ok .undefined
  | .str s, k =>
      match keyToNat k with
      | some i => .ok (((s.data.get? i).map fun c => JSVal.str (String.mk [c])).getD .undefined)
      | none => .ok .undefined
  | .bool _, _ => .ok .undefined
  | .num _, _ => .ok .undefined

/-- `for...of` iteration: arrays iterate over their elements, strings over
their characters; every other value reachable here (`null`, `undefined`,
booleans, numbers, plain objects) is not iterable and throws a TypeError. -/
def iterateVal : JSVal → Except Unit (List JSVal)
  | .arr elems => .ok elems
  | .str s => .ok (s.data.map fun c => JSVal.str (String.mk [c]))
  | _ => .error ()

/-- The notifications the bot can emit through its event-emitter surface. -/
inductive Notif where
  | receive (events : JSVal)
  | message (sender : JSVal) (text : JSVal) (raw : JSVal)
  | error

/-- Whether a notification is a `receive` notification. -/
def Notif.isReceive : Notif → Bool
  | .receive _ => true
  | _ => false

/-- Whether a notification is a `message` notification. -/
def Notif.isMessage : Notif → Bool
  | .message _ _ _ => true
  | _ => false

/-- Whether a notification is an `error` notification. -/
def Notif.isError : Notif → Bool
  | .error => true
  | _ => false

/-- The frozen `botConfig` created by the constructor. -/
structure BotConfig where
  pageAccessToken : String
  verifyToken : String

/-- One inbound HTTP request as the pipeline observes it: the method, the
parsed query string (absent parameters map to `none`), and the outcome of
UTF-8-decoding and JSON-parsing the raw body (see the header note). -/
structure Request where
  method : String
  query : String → Option String
  body : Option JSVal

/-- The observable outcome of one request: the HTTP status, the body when
it was produced by the pipeline's own `res.send` call (`none` when the
body is the framework's canned status text, which the program never
chooses), and the emitted notifications in order. -/
structure Outcome where
  status : Nat
  body : Option String
  notifs : List Notif

/-- The error-handling middleware (source lines 104–109):

```
this._express.use(function(err, req, res, next) {
  debug('ERROR', err);
  this.emit('error', err);
  res.sendStatus(400);
  next();
});
```

It is registered as a plain (non-arrow) function, and the framework
invokes error middleware as a plain call, so inside it `this` is not the
bot instance (the class body is strict-mode code, hence `this` is
`undefined`).  `debug` runs, then `this.emit('error', err)` itself throws
a TypeError before `res.sendStatus(400)` is reached; the framework catches
that exception and, with no further error middleware installed, its final
handler answers 500.  Net observable effect: no notification is emitted
and the response status is 500.  The incoming error value is never
observed. -/
def errorMiddleware (_err : Unit) : List Notif × Nat := ([], 500)

/-- The per-event loop of the dispatch handler (source lines 90–98):

```
for (let result of req.json.entry[0].messaging) {
  if (result.message.text) {
    this.emit('message', {
      sender: result.sender,
      message: result.message.text,
      raw: result
    });
  }
}
```

Returns the emitted `message` notifications in order together with a flag
recording whether the loop threw (it does as soon as `result.message` is
`undefined` or `null`, since `.text` is then read off `undefined`/`null`);
notifications emitted before the throw are kept.  `result.sender` cannot
throw at its use site (the preceding `result.message` access succeeded, so
`result` is not `undefined`/`null`); the `.toOption.getD .undefined`
totalisation is therefore exact. -/
def messageLoop : List JSVal → List Notif × Bool
  | [] => ([], false)
  | ev :: rest =>
    match getProp ev "message" with
    | .error _ => ([], true)
    | .ok msg =>
      match getProp msg "text" with
      | .error _ => ([], true)
      | .ok t =>
        if truthy t then
          (Notif.message ((getProp ev "sender").toOption.getD .undefined) t ev
              :: (messageLoop rest).1,
            (messageLoop rest).2)
        else messageLoop rest

/-- Outcome of evaluating the dispatch guard
`req.json && req.json.entry[0] && req.json.entry[0].messaging`. -/
inductive GuardOutcome where
  | passed (messaging : JSVal)
  | failed
  | threw

/-- Whether the guard passed. -/
def GuardOutcome.isPassed : GuardOutcome → Bool
  | .passed _ => true
  | _ => false

/-- Short-circuit evaluation of the guard (source line 88).  When
`req.json` is truthy, `req.json.entry` cannot throw; but when `entry` is
absent (or `null`), the subscript `[0]` is member access on
`undefined`/`null` and throws a TypeError.  When `entry[0]` is truthy,
`.messaging` cannot throw. -/
def evalGuard (json : JSVal) : GuardOutcome :=
  if truthy json then
    match getProp json "entry" with
    | .error _ => .threw
    | .ok entry =>
      match getProp entry "0" with
      | .error _ => .threw
      | .ok e0 =>
        if truthy e0 then
          match getProp e0 "messaging" with
          | .error _ => .threw
          | .ok messaging => if truthy messaging then .passed messaging else .failed
        else .failed
  else .failed

/-- The dispatch handler registered with `all('*')` (source lines 87–102),
up to but excluding its final `res.sendStatus(200)`: the notifications it
emits, in order, and whether it threw.  When the guard passes, `receive`
is emitted first with the messaging value as-is; then the `for...of` loop
runs (throwing immediately, after `receive`, if the messaging value is not
iterable). -/
def dispatch (json : JSVal) : List Notif × Bool :=
  match evalGuard json with
  | .failed => ([], false)
  | .threw => ([], true)
  | .passed messaging =>
    match iterateVal messaging with
    | .error _ => ([Notif.receive messaging], true)
    | .ok evs =>
      (Notif.receive messaging :: (messageLoop evs).1, (messageLoop evs).2)

/-- The whole middleware stack applied to one request.

GET requests are intercepted by the verification middleware: it compares
the stored token against `req.query['hub.verify_token']` with `===`
(string against possibly-`undefined` value, i.e. `Option` equality) and
answers `res.send(hub.challenge)` on match — an absent challenge makes
`res.send(undefined)`, an empty body — and `res.send('Error')` on
mismatch, status 200 either way, without calling `next()`.

Non-GET requests flow through the decode middleware: a parse failure is
passed to the error middleware; on success the dispatch handler runs, and
if it throws, the framework routes the exception to the error middleware
(the notifications already emitted stand); otherwise it answers 200. -/
def handle (cfg : BotConfig) (req : Request) : Outcome :=
  if req.method == "GET" then
    if some cfg.verifyToken == req.query "hub.verify_token" then
      { status := 200, body := some ((req.query "hub.challenge").getD ""), notifs := [] }
    else
      { status := 200, body := some "Error", notifs := [] }
  else
    match req.body with
    | none =>
      { status := (errorMiddleware ()).2, body := none, notifs := (errorMiddleware ()).1 }
    | some json =>
      if (dispatch json).2 then
        { status := (errorMiddleware ()).2, body := none,
          notifs := (dispatch json).1 ++ (errorMiddleware ()).1 }
      else
        { status := 200, body := none, notifs := (dispatch json).1 }

/-- The `result.message.text` access chain of the loop body, as a value:
`.error` exactly when the loop body would throw on this event. -/
def textOf (ev : JSVal) : Except Unit JSVal :=
  match getProp ev "message" with
  | .error e => .error e
  | .ok msg => getProp msg "text"

/-- Whether the loop body survives this event (its `message.text` chain
does not throw). -/
def evOk (ev : JSVal) : Bool :=
  (textOf ev).isOk

/-- The notification the loop body emits for one event, when any: `some`
exactly when `message.text` is truthy, carrying sender, text and the raw
event. -/
def evMsg (ev : JSVal) : Option Notif :=
  match getProp ev "message" with
  | .error _ => none
  | .ok msg =>
    match getProp msg "text" with
    | .error _ => none
    | .ok t =>
      if truthy t then
        some (Notif.message ((getProp ev "sender").toOption.getD .undefined) t ev)
      else none

/-- Characterisation of the per-event notifications of a dispatched
messaging value: nothing when it is not iterable (the loop throws at
setup), otherwise one notification per truthy-`message.text` event of the
longest prefix on which the `message.text` access chain does not throw,
in original order. -/
def specMessages (messaging : JSVal) : List Notif :=
  match iterateVal messaging with
  | .error _ => []
  | .ok evs => (evs.takeWhile evOk).filterMap evMsg

/-- Characterisation of how many `receive` notifications one request
produces: one exactly when the request is non-GET, its body decodes, and
the dispatch guard passes. -/
def receiveExpected (req : Request) : Nat :=
  if req.method == "GET" then 0
  else
    match req.body with
    | none => 0
    | some json => if (evalGuard json).isPassed then 1 else 0

/-- Sample event whose `message.text` is present and equal to the empty
string. -/
def emptyTextEvent : JSVal :=
  .obj [("sender", .obj [("id", .str "u1")]), ("message", .obj [("text", .str "")])]

/-- Sample payload delivering only `emptyTextEvent`. -/
def emptyTextPayload : JSVal :=
  .obj [("entry", .arr [.obj [("messaging", .arr [emptyTextEvent])]])]

/-- Sample event whose `message.text` is the non-empty string `hi`. -/
def hiTextEvent : JSVal :=
  .obj [("sender", .obj [("id", .str "u1")]), ("message", .obj [("text", .str "hi")])]

/-- Sample payload delivering only `hiTextEvent`. -/
def hiTextPayload : JSVal :=
  .obj [("entry", .arr [.obj [("messaging", .arr [hiTextEvent])]])]

/-- Sample payload whose `entry[0].messaging` is the empty array. -/
def emptyMessagingPayload : JSVal :=
  .obj [("entry", .arr [.obj [("messaging", .arr [])]])]

/-- Sample payload delivering `hiTextEvent` followed by `emptyTextEvent`. -/
def mixedTextPayload : JSVal :=
  .obj [("entry", .arr [.obj [("messaging", .arr [hiTextEvent, emptyTextEvent])]])]

/-- Sample event with a `sender` but no `message` field at all. -/
def noMessageEvent : JSVal := .obj [("sender", .obj [("id", .str "u2")])]

/-- Sample event whose `message.text` is the non-empty string `yo`. -/
def yoTextEvent : JSVal :=
  .obj [("sender", .obj [("id", .str "u3")]), ("message", .obj [("text", .str "yo")])]

/-- Sample payload delivering `hiTextEvent`, then `noMessageEvent`, then
`yoTextEvent`. -/
def missingMessagePayload : JSVal :=
  .obj [("entry", .arr [.obj [("messaging", .arr [hiTextEvent, noMessageEvent, yoTextEvent])]])]

/-- The per-event loop emits exactly one notification per
truthy-`message.text` event of the longest throw-free initial segment of
the sequence, in order, and throws exactly when some event's
`message.text` chain throws. -/
theorem messageLoop_eq (evs : List JSVal) :
    messageLoop evs = ((evs.takeWhile evOk).filterMap evMsg, !evs.all evOk) := by
  induction evs with
  | nil => rfl
  | cons ev rest ih =>
    simp only [messageLoop]
    cases hmsg : getProp ev "message" with
    | error e =>
      have hok : evOk ev = false := by
        simp [evOk, textOf, hmsg, Except.isOk, Except.toBool]
      rw [List.takeWhile_cons_of_neg (by simp [hok]), List.all_cons]
      simp [hok, hmsg]
    | ok msg =>
      cases htext : getProp msg "text" with
      | error e =>
        have hok : evOk ev = false := by
          simp [evOk, textOf, hmsg, htext, Except.isOk, Except.toBool]
        rw [List.takeWhile_cons_of_neg (by simp [hok]), List.all_cons]
        simp [hok, htext]
      | ok t =>
        have hok : evOk ev = true := by
          simp [evOk, textOf, hmsg, htext, Except.isOk, Except.toBool]
        rw [List.takeWhile_cons_of_pos (by simp [hok]), List.all_cons, List.filterMap_cons]
        by_cases ht : truthy t = true
        · simp [evMsg, hmsg, htext, ht, ih, hok]
        · simp at ht
          simp [evMsg, hmsg, htext, ht, ih, hok]

/-- Whatever the loop body emits for an event is a `message` notification. -/
theorem evMsg_isMessage {ev : JSVal} {n : Notif} (h : evMsg ev = some n) :
    Notif.isMessage n = true := by
  unfold evMsg at h
  split at h
  · exact absurd h (by simp)
  · split at h
    · exact absurd h (by simp)
    · split at h
      · cases h
        rfl
      · exact absurd h (by simp)

/-- Every notification in `specMessages` is a `message` notification. -/
theorem specMessages_isMessage (messaging : JSVal) :
    ∀ n ∈ specMessages messaging, Notif.isMessage n = true := by
  intro n hn
  unfold specMessages at hn
  split at hn
  · simp at hn
  · rcases List.mem_filterMap.mp hn with ⟨ev, _, hev⟩
    exact evMsg_isMessage hev

/-- The per-event loop never emits a `receive` notification. -/
theorem filterMap_evMsg_countP_receive (l : List JSVal) :
    (l.filterMap evMsg).countP Notif.isReceive = 0 := by
  rw [List.countP_eq_zero]
  intro n hn
  rcases List.mem_filterMap.mp hn with ⟨ev, _, hev⟩
  have hm := evMsg_isMessage hev
  cases n with
  | message s t r => simp [Notif.isReceive]
  | receive p => simp [Notif.isMessage] at hm
  | error => simp [Notif.isMessage] at hm

/-- `takeWhile` and `all` on a list that satisfies the predicate up to a
first failing element. -/
theorem takeWhile_middle (p : JSVal → Bool) (pre : List JSVal) (bad : JSVal) (rest : List JSVal)
    (hpre : ∀ x ∈ pre, p x = true) (hbad : p bad = false) :
    (pre ++ bad :: rest).takeWhile p = pre ∧ (pre ++ bad :: rest).all p = false := by
  induction pre with
  | nil =>
    constructor
    · simp [List.takeWhile_cons_of_neg, hbad]
    · simp [hbad]
  | cons x xs ih =>
    have hx : p x = true := hpre x (by simp)
    have ih2 := ih (fun y hy => hpre y (by simp [hy]))
    constructor
    · rw [List.cons_append, List.takeWhile_cons_of_pos (by simp [hx]), ih2.1]
    · rw [List.cons_append, List.all_cons, ih2.2]
      simp

/-- `takeWhile` keeps the whole list when every element satisfies the
predicate. -/
theorem takeWhile_of_all {p : JSVal → Bool} {l : List JSVal} (h : l.all p = true) :
    l.takeWhile p = l := by
  induction l with
  | nil => rfl
  | cons x xs ih =>
    rw [List.all_cons, Bool.and_eq_true] at h
    rw [List.takeWhile_cons_of_pos h.1, ih h.2]

/-- The notifications of the dispatch handler: `receive` followed by the
per-event notifications when the guard passes, nothing otherwise. -/
theorem dispatch_notifs (json : JSVal) :
    (∀ messaging, evalGuard json = .passed messaging →
        (dispatch json).1 = Notif.receive messaging :: specMessages messaging) ∧
    ((evalGuard json).isPassed = false → (dispatch json).1 = []) := by
  constructor
  · intro m hg
    unfold dispatch
    rw [hg]
    cases hi : iterateVal m with
    | error e => simp [specMessages, hi]
    | ok evs => simp [specMessages, hi, messageLoop_eq]
  · intro hg
    unfold dispatch
    cases h : evalGuard json with
    | passed m => rw [h] at hg; simp [GuardOutcome.isPassed] at hg
    | failed => rfl
    | threw => rfl

/-- A non-GET request whose body decodes is answered entirely by the
dispatch handler and, when it throws, the error middleware: 200 with the
dispatch notifications on success, 500 (the crashed error middleware, see
`errorMiddleware`) with the notifications emitted before the throw
otherwise. -/
theorem handle_non_get (cfg : BotConfig) (req : Request) (json : JSVal)
    (hm : req.method ≠ "GET") (hb : req.body = some json) :
    handle cfg req =
      if (dispatch json).2 then
        { status := 500, body := none, notifs := (dispatch json).1 }
      else
        { status := 200, body := none, notifs := (dispatch json).1 } := by
  unfold handle
  rw [if_neg (by simp [hm]), hb]
  simp only [errorMiddleware, List.append_nil]

/-- C1 (amended): for every GET request the status is 200; on exact token
match the body is the `hub.challenge` value (empty when the parameter is
absent, matching `res.send(undefined)`); on mismatch the body is the fixed
string `Error`; GET handling never reads the body, and every non-GET
request bypasses the verification check entirely, its handling being
independent of the query.  (The claim's if-and-only-if form fails only in
the collision case exhibited by the counterexample, where the challenge
itself is the string `Error`.) -/
theorem C1_get_verification (cfg : BotConfig) (m : String) (q q' : String → Option String)
    (b b' : Option JSVal) :
    (m = "GET" →
      (handle cfg ⟨m, q, b⟩).status = 200 ∧
      (q "hub.verify_token" = some cfg.verifyToken →
        (handle cfg ⟨m, q, b⟩).body = some ((q "hub.challenge").getD "")) ∧
      (q "hub.verify_token" ≠ some cfg.verifyToken →
        (handle cfg ⟨m, q, b⟩).body = some "Error") ∧
      handle cfg ⟨m, q, b⟩ = handle cfg ⟨m, q, b'⟩) ∧
    (m ≠ "GET" → handle cfg ⟨m, q, b⟩ = handle cfg ⟨m, q', b⟩) := by
  constructor
  · intro hm
    subst hm
    unfold handle
    by_cases hv : some cfg.verifyToken = q "hub.verify_token"
    · rw [if_pos (by simp), if_pos (by simp [hv])]
      exact ⟨rfl, fun _ => rfl, fun hne => absurd hv.symm hne, rfl⟩
    · rw [if_pos (by simp), if_neg (by simp [hv])]
      exact ⟨rfl, fun heq => absurd heq.symm hv, fun _ => rfl, rfl⟩
  · intro hm
    unfold handle
    rw [if_neg (by simp [hm]), if_neg (by simp [hm])]

/-- C1 witness: with stored token `V1`, a matching GET with challenge
`xyz123` is answered with body `xyz123`, and a non-GET request is handled
identically under two different query functions. -/
theorem C1_get_verification_witness :
    (handle ⟨"T1", "V1"⟩
      ⟨"GET", fun k => if k == "hub.verify_token" then some "V1"
        else if k == "hub.challenge" then some "xyz123" else none, none⟩).body
      = some "xyz123" ∧
    handle ⟨"T1", "V1"⟩ ⟨"POST", fun _ => none, some .null⟩
      = handle ⟨"T1", "V1"⟩ ⟨"POST", fun _ => some "x", some .null⟩ := by
  constructor
  · exact ((C1_get_verification ⟨"T1", "V1"⟩ "GET"
      (fun k => if k == "hub.verify_token" then some "V1"
        else if k == "hub.challenge" then some "xyz123" else none)
      (fun _ => none) none none).1 rfl).2.1 rfl
  · exact (C1_get_verification ⟨"T1", "V1"⟩ "POST"
      (fun _ => none) (fun _ => some "x") (some .null) none).2 (by decide)

/-- C1 counterexample to the claimed if-and-only-if: a GET request whose
`hub.verify_token` is `WRONG` (not the stored `V1`) and whose
`hub.challenge` is the string `Error` gets body `Error`, which equals the
challenge value even though the token does not match — so body-equals-
challenge does not imply a token match. -/
theorem C1_challenge_collision_counterexample :
    (handle ⟨"T1", "V1"⟩
      ⟨"GET", fun k => if k == "hub.verify_token" then some "WRONG"
        else if k == "hub.challenge" then some "Error" else none, none⟩).body
      = some "Error" ∧
    (fun k => if k == "hub.verify_token" then some "WRONG"
        else if k == "hub.challenge" then some "Error" else none) "hub.challenge"
      = some "Error" ∧
    (fun k => if k == "hub.verify_token" then some "WRONG"
        else if k == "hub.challenge" then some "Error" else none) "hub.verify_token"
      ≠ some "V1" := ⟨rfl, rfl, by decide⟩

/-- C2: a non-GET request whose body fails JSON parsing is answered with
status 500 and zero notifications — in particular zero `error`
notifications — because the error middleware's `this.emit('error', err)`
runs with `this` unbound and itself throws before `res.sendStatus(400)`,
contradicting the claimed 400 plus exactly one `error` notification. -/
theorem C2_decode_failure_500_no_error_notif :
    handle ⟨"T1", "V1"⟩ ⟨"POST", fun _ => none, none⟩
      = { status := 500, body := none, notifs := [] } := rfl

/-- C3: the syntactically valid JSON body with parsed value an object
lacking `entry` (here `\x7b"a":1\x7d`) is answered 500, not 200: the dispatch
guard evaluates `req.json.entry[0]` on `undefined` and throws, and the
crashed error middleware leads to the framework's 500. -/
theorem C3_valid_json_not_always_200 :
    handle ⟨"T1", "V1"⟩ ⟨"POST", fun _ => none, some (.obj [("a", .num 1)])⟩
      = { status := 500, body := none, notifs := [] } := rfl

/-- C4: a decoded payload with `entry` absent (the empty object) does not
yield an empty event sequence with status 200; the guard throws on
`entry[0]` and the request ends in the error path with status 500 (zero
notifications are indeed emitted). -/
theorem C4_absent_entry_throws :
    handle ⟨"T1", "V1"⟩ ⟨"POST", fun _ => none, some (.obj [])⟩
      = { status := 500, body := none, notifs := [] } := rfl

/-- C5 counterexample: an event whose `message.text` is present and equal
to the empty string produces zero `message` notifications (the `receive`
notification still fires), because the loop gates on truthiness, not
presence — contradicting the claim that presence alone gates emission. -/
theorem C5_empty_text_counterexample :
    textOf emptyTextEvent = .ok (.str "") ∧
    (handle ⟨"T1", "V1"⟩ ⟨"POST", fun _ => none, some emptyTextPayload⟩).notifs
      = [Notif.receive (.arr [emptyTextEvent])] ∧
    (handle ⟨"T1", "V1"⟩
        ⟨"POST", fun _ => none, some emptyTextPayload⟩).notifs.countP Notif.isMessage
      = 0 := ⟨rfl, rfl, rfl⟩

/-- C5 (amended): for every non-GET request whose body decodes, whose
guard passes and whose messaging value iterates to a sequence on which no
`message.text` access throws, the emitted notifications are `receive`
followed by exactly one `message` notification per event whose
`message.text` is truthy (a non-empty text; an empty string emits
nothing), in order, carrying the sender, the text and the raw event — and
the response status is 200. -/
theorem C5_message_truthiness_gate (cfg : BotConfig) (req : Request)
    (json messaging : JSVal) (evs : List JSVal)
    (hm : req.method ≠ "GET") (hb : req.body = some json)
    (hg : evalGuard json = .passed messaging) (hi : iterateVal messaging = .ok evs)
    (hok : evs.all evOk = true) :
    (handle cfg req).notifs = Notif.receive messaging :: evs.filterMap evMsg ∧
    (handle cfg req).status = 200 := by
  have hd : dispatch json = (Notif.receive messaging :: evs.filterMap evMsg, false) := by
    unfold dispatch
    rw [hg]
    simp [hi, messageLoop_eq, takeWhile_of_all hok, hok]
  rw [handle_non_get cfg req json hm hb, hd]
  exact ⟨rfl, rfl⟩

/-- C5 witness: a one-event payload with text `hi` yields `receive`
followed by one `message` notification carrying the sender, the text and
the raw event, with status 200. -/
theorem C5_message_truthiness_gate_witness :
    (handle ⟨"T1", "V1"⟩ ⟨"POST", fun _ => none, some hiTextPayload⟩).notifs
      = [Notif.receive (.arr [hiTextEvent]),
         Notif.message (.obj [("id", .str "u1")]) (.str "hi") hiTextEvent] ∧
    (handle ⟨"T1", "V1"⟩ ⟨"POST", fun _ => none, some hiTextPayload⟩).status = 200 :=
  C5_message_truthiness_gate ⟨"T1", "V1"⟩ ⟨"POST", fun _ => none, some hiTextPayload⟩
    hiTextPayload (.arr [hiTextEvent]) [hiTextEvent] (by decide) rfl rfl rfl rfl

/-- C6 counterexample: when `entry[0].messaging` is the empty array the
extracted event sequence is empty, yet a `receive` notification fires
(carrying the empty array), because an empty array is truthy —
contradicting the claim that no `receive` notification fires when the
extracted sequence is empty. -/
theorem C6_empty_messaging_counterexample :
    (handle ⟨"T1", "V1"⟩ ⟨"POST", fun _ => none, some emptyMessagingPayload⟩).notifs
      = [Notif.receive (.arr [])] ∧
    iterateVal (.arr []) = .ok ([] : List JSVal) := ⟨rfl, rfl⟩

/-- C6 (amended): a `receive` notification is emitted exactly once iff the
request is non-GET, its body decodes, and the dispatch guard passes
(truthy parsed value, truthy `entry[0]`, truthy `entry[0].messaging`); it
then carries the messaging value as-is, including when that value is an
empty array, i.e. an empty extracted sequence.  In every other case zero
`receive` notifications fire. -/
theorem C6_receive_iff_guard (cfg : BotConfig) (req : Request) :
    (handle cfg req).notifs.countP Notif.isReceive = receiveExpected req ∧
    (∀ json messaging, req.body = some json → evalGuard json = .passed messaging →
      req.method ≠ "GET" → Notif.receive messaging ∈ (handle cfg req).notifs) := by
  by_cases hGET : req.method = "GET"
  · constructor
    · have h1 : (handle cfg req).notifs = [] := by
        unfold handle
        rw [if_pos (by simp [hGET])]
        by_cases hv : (some cfg.verifyToken == req.query "hub.verify_token") = true
        · rw [if_pos hv]
        · rw [if_neg hv]
      rw [h1]
      unfold receiveExpected
      rw [if_pos (by simp [hGET])]
      rfl
    · intro json messaging _ _ hne
      exact absurd hGET hne
  · cases hb : req.body with
    | none =>
      constructor
      · unfold handle receiveExpected
        rw [if_neg (by simp [hGET]), if_neg (by simp [hGET]), hb]
        rfl
      · intro json messaging hbj
        exact absurd hbj (by simp)
    | some json =>
      have hh := handle_non_get cfg req json hGET hb
      have hre : receiveExpected req = if (evalGuard json).isPassed then 1 else 0 := by
        unfold receiveExpected
        rw [if_neg (by simp [hGET]), hb]
      cases hg : evalGuard json with
      | failed =>
        have hd1 : (dispatch json).1 = [] :=
          (dispatch_notifs json).2 (by rw [hg]; rfl)
        constructor
        · rw [hh]
          by_cases ht : (dispatch json).2 = true
          · rw [if_pos ht]
            simp [hd1, hre, hg, GuardOutcome.isPassed]
          · rw [if_neg ht]
            simp [hd1, hre, hg, GuardOutcome.isPassed]
        · intro json0 messaging hbj hg0 _
          obtain rfl : json = json0 := Option.some.inj hbj
          rw [hg] at hg0
          simp at hg0
      | threw =>
        have hd1 : (dispatch json).1 = [] :=
          (dispatch_notifs json).2 (by rw [hg]; rfl)
        constructor
        · rw [hh]
          by_cases ht : (dispatch json).2 = true
          · rw [if_pos ht]
            simp [hd1, hre, hg, GuardOutcome.isPassed]
          · rw [if_neg ht]
            simp [hd1, hre, hg, GuardOutcome.isPassed]
        · intro json0 messaging hbj hg0 _
          obtain rfl : json = json0 := Option.some.inj hbj
          rw [hg] at hg0
          simp at hg0
      | passed m =>
        have hd1 : (dispatch json).1 = Notif.receive m :: specMessages m :=
          (dispatch_notifs json).1 m hg
        have hsm : (specMessages m).countP Notif.isReceive = 0 := by
          unfold specMessages
          cases hi : iterateVal m with
          | error e => rfl
          | ok evs => simpa using filterMap_evMsg_countP_receive (evs.takeWhile evOk)
        have hcount : (dispatch json).1.countP Notif.isReceive = 1 := by
          rw [hd1]
          simp [hsm, Notif.isReceive]
        constructor
        · rw [hh]
          by_cases ht : (dispatch json).2 = true
          · rw [if_pos ht]
            simp only []
            rw [hcount, hre, hg]
            rfl
          · rw [if_neg ht]
            simp only []
            rw [hcount, hre, hg]
            rfl
        · intro json0 messaging hbj hg0 _
          obtain rfl : json = json0 := Option.some.inj hbj
          rw [hg] at hg0
          obtain rfl : m = messaging := by
            cases hg0
            rfl
          rw [hh]
          by_cases ht : (dispatch json).2 = true
          · rw [if_pos ht]
            simp [hd1]
          · rw [if_neg ht]
            simp [hd1]

/-- C6 witness: a one-event payload yields exactly one `receive`
notification, carrying its messaging array. -/
theorem C6_receive_iff_guard_witness :
    (handle ⟨"T1", "V1"⟩ ⟨"POST", fun _ => none, some hiTextPayload⟩).notifs.countP
        Notif.isReceive = 1 ∧
    Notif.receive (.arr [hiTextEvent])
      ∈ (handle ⟨"T1", "V1"⟩ ⟨"POST", fun _ => none, some hiTextPayload⟩).notifs := by
  have h := C6_receive_iff_guard ⟨"T1", "V1"⟩ ⟨"POST", fun _ => none, some hiTextPayload⟩
  exact ⟨h.1, h.2 hiTextPayload (.arr [hiTextEvent]) rfl rfl (by decide)⟩

/-- C7 counterexample to the "no filtering beyond text presence" clause:
with events `hi` then empty-string text, the second event's `message.text`
is present yet it is filtered out — only the ordering part of the claim
survives (visible in the emitted list: `receive` first, then the one
`message`). -/
theorem C7_present_but_filtered_counterexample :
    textOf emptyTextEvent = .ok (.str "") ∧
    (handle ⟨"T1", "V1"⟩ ⟨"POST", fun _ => none, some mixedTextPayload⟩).notifs
      = [Notif.receive (.arr [hiTextEvent, emptyTextEvent]),
         Notif.message (.obj [("id", .str "u1")]) (.str "hi") hiTextEvent] := ⟨rfl, rfl⟩

/-- C7 (amended): within a single request the notification list is either
empty or `receive` followed exclusively by `message` notifications, so
`receive` precedes every `message` notification; and the `message`
notifications are exactly those of `specMessages`: the events of the
throw-free initial segment, in original order with no reordering or
deduplication, filtered only by truthiness of `message.text` (not by mere
presence). -/
theorem C7_receive_first_ordered (cfg : BotConfig) (req : Request) :
    (handle cfg req).notifs = [] ∨
    ∃ messaging,
      (handle cfg req).notifs = Notif.receive messaging :: specMessages messaging ∧
      ∀ n ∈ specMessages messaging, Notif.isMessage n = true := by
  by_cases hGET : req.method = "GET"
  · left
    unfold handle
    rw [if_pos (by simp [hGET])]
    by_cases hv : (some cfg.verifyToken == req.query "hub.verify_token") = true
    · rw [if_pos hv]
    · rw [if_neg hv]
  · cases hb : req.body with
    | none =>
      left
      unfold handle
      rw [if_neg (by simp [hGET]), hb]
      rfl
    | some json =>
      have hh := handle_non_get cfg req json hGET hb
      cases hg : evalGuard json with
      | failed =>
        left
        rw [hh]
        have hd1 := (dispatch_notifs json).2 (by rw [hg]; rfl)
        by_cases ht : (dispatch json).2 = true
        · rw [if_pos ht]
          exact hd1
        · rw [if_neg ht]
          exact hd1
      | threw =>
        left
        rw [hh]
        have hd1 := (dispatch_notifs json).2 (by rw [hg]; rfl)
        by_cases ht : (dispatch json).2 = true
        · rw [if_pos ht]
          exact hd1
        · rw [if_neg ht]
          exact hd1
      | passed m =>
        right
        refine ⟨m, ?_, specMessages_isMessage m⟩
        have hd1 := (dispatch_notifs json).1 m hg
        rw [hh]
        by_cases ht : (dispatch json).2 = true
        · rw [if_pos ht]
          exact hd1
        · rw [if_neg ht]
          exact hd1

/-- C7 witness: the ordering statement instantiated at the two-event
payload. -/
theorem C7_receive_first_ordered_witness :
    (handle ⟨"T1", "V1"⟩ ⟨"POST", fun _ => none, some mixedTextPayload⟩).notifs = [] ∨
    ∃ messaging,
      (handle ⟨"T1", "V1"⟩ ⟨"POST", fun _ => none, some mixedTextPayload⟩).notifs
        = Notif.receive messaging :: specMessages messaging ∧
      ∀ n ∈ specMessages messaging, Notif.isMessage n = true :=
  C7_receive_first_ordered ⟨"T1", "V1"⟩ ⟨"POST", fun _ => none, some mixedTextPayload⟩

/-- C8: a non-GET request with the syntactically valid JSON body `5` drives
the pipeline to status 500 — a 5xx status caused by pipeline logic (the
guard throws on `entry` of a number yielding `undefined`, and the crashed
error middleware leaves the framework's final handler to answer 500) —
contradicting the claim that the platform only ever sees 200 or 400. -/
theorem C8_pipeline_produces_500 :
    handle ⟨"T1", "V1"⟩ ⟨"POST", fun _ => none, some (.num 5)⟩
      = { status := 500, body := none, notifs := [] } := rfl

/-- C9: when the dispatched event sequence contains an event with no
`message` field (its member access yields `undefined`), the handler has
already emitted `receive` and the `message` notifications of the events
before it, then dereferences `.text` on `undefined` and throws: no
`message` notification fires for that event or any later one, the
handler's 200 is never sent, and control transfers to the error path
(whose crashed middleware ends the request with status 500). -/
theorem C9_missing_message_aborts (cfg : BotConfig) (req : Request)
    (json messaging : JSVal) (pre : List JSVal) (bad : JSVal) (rest : List JSVal)
    (hm : req.method ≠ "GET") (hb : req.body = some json)
    (hg : evalGuard json = .passed messaging)
    (hi : iterateVal messaging = .ok (pre ++ bad :: rest))
    (hpre : ∀ ev ∈ pre, evOk ev = true)
    (hbad : getProp bad "message" = .ok .undefined) :
    (handle cfg req).notifs = Notif.receive messaging :: pre.filterMap evMsg ∧
    (handle cfg req).status = 500 := by
  have hbadok : evOk bad = false := by
    unfold evOk textOf
    rw [hbad]
    rfl
  have htw := takeWhile_middle evOk pre bad rest hpre hbadok
  have hd : dispatch json = (Notif.receive messaging :: pre.filterMap evMsg, true) := by
    unfold dispatch
    rw [hg]
    simp [hi, messageLoop_eq, htw.1, htw.2]
  rw [handle_non_get cfg req json hm hb, hd]
  exact ⟨rfl, rfl⟩

/-- C9 witness: with events `hi`, then one lacking `message`, then `yo`,
the request emits `receive` and the single `message` notification for the
first event, and ends with status 500. -/
theorem C9_missing_message_aborts_witness :
    (handle ⟨"T1", "V1"⟩ ⟨"POST", fun _ => none, some missingMessagePayload⟩).notifs
      = [Notif.receive (.arr [hiTextEvent, noMessageEvent, yoTextEvent]),
         Notif.message (.obj [("id", .str "u1")]) (.str "hi") hiTextEvent] ∧
    (handle ⟨"T1", "V1"⟩ ⟨"POST", fun _ => none, some missingMessagePayload⟩).status = 500 :=
  C9_missing_message_aborts ⟨"T1", "V1"⟩
    ⟨"POST", fun _ => none, some missingMessagePayload⟩ missingMessagePayload
    (.arr [hiTextEvent, noMessageEvent, yoTextEvent]) [hiTextEvent] noMessageEvent [yoTextEvent]
    (by decide) rfl rfl rfl (by decide) rfl

/-- C10: for every non-GET request whose body parses to a falsy value
(`null`, `false`, `0` or the empty string), the dispatch guard's first
conjunct fails, zero notifications are emitted, and the response status is
200. -/
theorem C10_falsy_json_accepted (cfg : BotConfig) (req : Request) (json : JSVal)
    (hm : req.method ≠ "GET") (hb : req.body = some json) (hf : truthy json = false) :
    handle cfg req = { status := 200, body := none, notifs := [] } := by
  have hd : dispatch json = ([], false) := by
    unfold dispatch evalGuard
    rw [if_neg (by simp [hf])]
  rw [handle_non_get cfg req json hm hb, hd]
  rfl

/-- C10 witness: all four falsy JSON values are answered 200 with zero
notifications. -/
theorem C10_falsy_json_accepted_witness :
    handle ⟨"T1", "V1"⟩ ⟨"POST", fun _ => none, some .null⟩
      = { status := 200, body := none, notifs := [] } ∧
    handle ⟨"T1", "V1"⟩ ⟨"POST", fun _ => none, some (.bool false)⟩
      = { status := 200, body := none, notifs := [] } ∧
    handle ⟨"T1", "V1"⟩ ⟨"POST", fun _ => none, some (.num 0)⟩
      = { status := 200, body := none, notifs := [] } ∧
    handle ⟨"T1", "V1"⟩ ⟨"POST", fun _ => none, some (.str "")⟩
      = { status := 200, body := none, notifs := [] } :=
  ⟨C10_falsy_json_accepted _ _ _ (by decide) rfl rfl,
   C10_falsy_json_accepted _ _ _ (by decide) rfl rfl,
   C10_falsy_json_accepted _ _ _ (by decide) rfl rfl,
   C10_falsy_json_accepted _ _ _ (by decide) rfl rfl⟩

end MessengerBot
